import Mathlib

/-!
Verification of the isbn-barcode-maker core: a shallow embedding of the
Rust sources `src-tauri/src/barcode.rs`, `src-tauri/src/eps.rs` and
`src-tauri/src/lib.rs`, followed by theorems about it.

Modelling conventions.  Rust strings that are inspected character by
character are modelled as `List Char`; for the length guards
(`isbn.len() != 13`, byte length in Rust) this is observationally
equivalent, because whenever the character-class guard
(`all is_ascii_digit`) passes every character is ASCII, so byte length
and character count agree, and when it fails both models reject.
`f64` arithmetic is modelled as exact rational arithmetic over `ℚ`:
every numeric literal of the source is a finite decimal, and the program
only adds, subtracts, multiplies, takes a ceiling and formats.  Rust
`Option` is `Option`; the generated EPS document is modelled as its list
of lines (without trailing newline characters); a `push_str` ending in a
double newline and a lone `push` of a newline contribute an empty line.
-/

/-! ## Definitions -/

/-- The numeric value of a decimal-digit character: Rust
`c.to_digit(10).unwrap()`, applied in the source only under an
`is_ascii_digit` guard. -/
def digitVal (c : Char) : ℕ := c.toNat - 48

/-- The bit list of a module string such as "0001101": Rust
`modules.bytes().map(|b| b - b'0')`. -/
def strModules (s : String) : List ℕ := s.data.map (fun c => c.toNat - 48)

/-- L-codes (odd parity), `L_CODES` in barcode.rs.  Rust indexes a
10-element array with a digit; the wildcard case is unreachable there. -/
def L_CODES (d : ℕ) : String :=
  match d with
  | 0 => "0001101" | 1 => "0011001" | 2 => "0010011" | 3 => "0111101" | 4 => "0100011"
  | 5 => "0110001" | 6 => "0101111" | 7 => "0111011" | 8 => "0110111" | 9 => "0001011"
  | _ => ""

/-- G-codes (even parity), `G_CODES` in barcode.rs. -/
def G_CODES (d : ℕ) : String :=
  match d with
  | 0 => "0100111" | 1 => "0110011" | 2 => "0011011" | 3 => "0100001" | 4 => "0011101"
  | 5 => "0111001" | 6 => "0000101" | 7 => "0010001" | 8 => "0001001" | 9 => "0010111"
  | _ => ""

/-- R-codes (right side), `R_CODES` in barcode.rs. -/
def R_CODES (d : ℕ) : String :=
  match d with
  | 0 => "1110010" | 1 => "1100110" | 2 => "1101100" | 3 => "1000010" | 4 => "1011100"
  | 5 => "1001110" | 6 => "1010000" | 7 => "1000100" | 8 => "1001000" | 9 => "1110100"
  | _ => ""

/-- First digit encoding pattern (which L/G pattern to use for digits 2-7),
`FIRST_DIGIT_PATTERNS` in barcode.rs. -/
def FIRST_DIGIT_PATTERNS (d : ℕ) : String :=
  match d with
  | 0 => "LLLLLL" | 1 => "LLGLGG" | 2 => "LLGGLG" | 3 => "LLGGGL" | 4 => "LGLLGG"
  | 5 => "LGGLLG" | 6 => "LGGGLL" | 7 => "LGLGLG" | 8 => "LGLGGL" | 9 => "LGGLGL"
  | _ => ""

/-- EAN-5 (add-on) check digit patterns, `EAN5_PATTERNS` in barcode.rs. -/
def EAN5_PATTERNS (d : ℕ) : String :=
  match d with
  | 0 => "GGLLL" | 1 => "GLGLL" | 2 => "GLLGL" | 3 => "GLLLG" | 4 => "LGGLL"
  | 5 => "LLGGL" | 6 => "LLLGG" | 7 => "LGLGL" | 8 => "LGLLG" | 9 => "LLGLG"
  | _ => ""

/-- Function `validate_isbn13` from barcode.rs: 13 decimal digits whose sum with
alternating weights 1 and 3 (weight 1 at index 0) is divisible by 10. -/
def validate_isbn13 (isbn : List Char) : Bool :=
  if isbn.length = 13 ∧ isbn.all Char.isDigit then
    ((isbn.map digitVal).enum.map
        (fun p => if p.1 % 2 = 0 then p.2 else p.2 * 3)).sum % 10 == 0
  else
    false

/-- Function `encode_ean13` from barcode.rs.  The left loop runs over the six
characters of the selected first-digit pattern (Rust
`pattern.as_bytes().iter().enumerate()`, modelled by `List.enum` on the
pattern's characters), the right loop over indices 7..13 (Rust
`for i in 7..13`, modelled by `List.range' 7 6`). -/
def encode_ean13 (isbn : List Char) : Option (List ℕ) :=
  if isbn.length = 13 ∧ isbn.all Char.isDigit then
    let digits := isbn.map digitVal
    let pattern := FIRST_DIGIT_PATTERNS (digits.getD 0 0)
    some ((strModules ("101"))
      ++ pattern.data.enum.flatMap (fun p =>
            let digit := digits.getD (p.1 + 1) 0
            if p.2 = 'L' then strModules (L_CODES digit) else strModules (G_CODES digit))
      ++ (strModules ("01010"))
      ++ (List.range' 7 6).flatMap (fun i => strModules (R_CODES (digits.getD i 0)))
      ++ (strModules ("101")))
  else
    none

/-- Function `ean5_check` from barcode.rs: weighted sum 3,9,3,9,3 of the five
digits, mod 10. -/
def ean5_check (digits : List ℕ) : ℕ :=
  (digits.getD 0 0 * 3 + digits.getD 1 0 * 9 + digits.getD 2 0 * 3
    + digits.getD 3 0 * 9 + digits.getD 4 0 * 3) % 10

/-- Function `encode_ean5` from barcode.rs.  Start marker 1011, then each digit's
L/G code per the pattern selected by the check digit, with a "01"
separator after every digit except the last. -/
def encode_ean5 (addon : List Char) : Option (List ℕ) :=
  if addon.length = 5 ∧ addon.all Char.isDigit then
    let digits := addon.map digitVal
    let check := ean5_check digits
    let pattern := EAN5_PATTERNS check
    some ((strModules ("1011"))
      ++ pattern.data.enum.flatMap (fun p =>
            let digit := digits.getD p.1 0
            (if p.2 = 'L' then strModules (L_CODES digit) else strModules (G_CODES digit))
            ++ (if p.1 < 4 then strModules ("01") else [])))
  else
    none

/-- The sequence of L/G table choices used for the six left-half digits of
an EAN-13 symbol: a function of the leading digit alone. -/
def ean13TableChoices (isbn : List Char) : List Char :=
  (FIRST_DIGIT_PATTERNS (digitVal (isbn.getD 0 '0'))).data

/-- The sequence of L/G table choices used for the five digits of an EAN-5
symbol: a function of the computed check digit alone. -/
def ean5TableChoices (addon : List Char) : List Char :=
  (EAN5_PATTERNS (ean5_check (addon.map digitVal))).data

/-- The 7-bit code emitted for the i-th left-half digit (claim wording):
table L or G according to the first-digit pattern. -/
def specLeftCode (isbn : List Char) (i : ℕ) : List ℕ :=
  if (ean13TableChoices isbn).getD i ' ' = 'L' then
    strModules (L_CODES (digitVal (isbn.getD (i + 1) '0')))
  else
    strModules (G_CODES (digitVal (isbn.getD (i + 1) '0')))

/-- The 7-bit code emitted for the i-th right-half digit: table R. -/
def specRightCode (isbn : List Char) (i : ℕ) : List ℕ :=
  strModules (R_CODES (digitVal (isbn.getD (7 + i) '0')))

/-- The block emitted for the i-th EAN-5 digit: its L/G code per the
pattern selected by the check digit, followed by the 01 separator for all
but the last digit. -/
def specAddonCode (addon : List Char) (i : ℕ) : List ℕ :=
  (if (ean5TableChoices addon).getD i ' ' = 'L' then
    strModules (L_CODES (digitVal (addon.getD i '0')))
  else
    strModules (G_CODES (digitVal (addon.getD i '0'))))
  ++ (if i < 4 then [0, 1] else [])

/-- Module width (X-dimension) in mm, `x_dim` in eps.rs. -/
def x_dim : ℚ := 0.33

/-- mm-to-pt scale factor, `scale` in eps.rs. -/
def scale : ℚ := 2.83464567

/-- Font size in mm, `font_size` in eps.rs. -/
def font_size : ℚ := 3.175

/-- ISBN text baseline, `text_y` in eps.rs. -/
def text_y : ℚ := 0.0847

/-- Guard bars and add-on bars bottom, `guard_bottom` in eps.rs. -/
def guard_bottom : ℚ := 1.093

/-- Normal bars bottom, `bar_bottom` in eps.rs. -/
def bar_bottom : ℚ := 2.743

/-- Left quiet zone, `quiet_zone_left` in eps.rs. -/
def quiet_zone_left : ℚ := 3.63

/-- Right quiet zone, `quiet_zone_right` in eps.rs. -/
def quiet_zone_right : ℚ := 2.31

/-- Gap before the add-on, in modules, `addon_gap_modules` in eps.rs. -/
def addon_gap_modules : ℚ := 7.0

/-- Add-on bars bottom, `addon_bar_bottom` in eps.rs (same as the guard
bottom). -/
def addon_bar_bottom : ℚ := guard_bottom

/-- Gap between add-on bar top and text baseline,
`addon_text_baseline_gap` in eps.rs. -/
def addon_text_baseline_gap : ℚ := 0.4147

/-- Mathematical floor of a rational, computably: `Int.ediv` of the
normalised numerator by the (positive) denominator. -/
def ratFloor (q : ℚ) : ℤ := Int.ediv q.num q.den

/-- Mathematical ceiling of a rational (Rust `f64::ceil`), computably. -/
def ceilQ (q : ℚ) : ℤ := -ratFloor (-q)

/-- Zero-pad a digit string on the left to length `p`. -/
def padZeros (p : ℕ) (s : String) : String :=
  String.mk (List.replicate (p - s.length) '0') ++ s

/-- Fixed-precision decimal formatting, modelling Rust `format!` with a
`{:.p}` specifier: the value rounded to the nearest multiple of 10^-p
(ties rounded up) and printed with exactly `p` fractional digits. -/
def fmtFixed (p : ℕ) (q : ℚ) : String :=
  let n : ℤ := ratFloor (q * (10 : ℚ) ^ p + 1 / 2)
  let sgn := if n < 0 then "-" else ""
  let a := n.natAbs
  if p = 0 then sgn ++ toString (a / 10 ^ p)
  else sgn ++ toString (a / 10 ^ p) ++ "." ++ padZeros p (toString (a % 10 ^ p))

/-- The `draw_bar` closure of eps.rs: one filled-rectangle line. -/
def draw_bar (x w y_bot y_top : ℚ) : String :=
  "n " ++ fmtFixed 4 x ++ " " ++ fmtFixed 4 y_bot
    ++ " m " ++ fmtFixed 4 x ++ " " ++ fmtFixed 4 y_top
    ++ " l " ++ fmtFixed 4 (x + w) ++ " " ++ fmtFixed 4 y_top
    ++ " l " ++ fmtFixed 4 (x + w) ++ " " ++ fmtFixed 4 y_bot
    ++ " l f c"

/-- The `draw_text` closure of eps.rs: one text-placement line. -/
def draw_text (x y : ℚ) (text : String) : String :=
  "n " ++ fmtFixed 4 x ++ " " ++ fmtFixed 4 y ++ " m (" ++ text ++ ") s c"

/-- EPS header block: declaration, both bounding boxes, creator tag,
EndComments and the following blank line. -/
def headerLines (bb_width bb_height : ℤ) (hi_w hi_h : ℚ) : List String :=
  ["%!PS-Adobe-2.0 EPSF-1.2",
   "%%BoundingBox: 0 0 " ++ toString bb_width ++ " " ++ toString bb_height,
   "%%HiResBoundingBox: 0 0 " ++ fmtFixed 5 hi_w ++ " " ++ fmtFixed 5 hi_h,
   "%%Creator: ISBN Barcode Maker",
   "%%EndComments",
   ""]

/-- EPS settings comment block.  The "% Add-On:" line is emitted whenever
the add-on string is non-empty; the "% Add-On Offset:" line is passed in
already formatted. -/
def settingsLines (isbn addon : List Char) (bar_height_mm : ℚ) (dpi : ℕ)
    (addonOffsetLine : String) : List String :=
  ["%SETTINGS",
   "% Color: CMYK",
   "% Background: 0.000 0.000 0.000 0.000",
   "% Foreground: 0.000 0.000 0.000 1.000",
   "% Human Readable: Yes",
   "% Text Font: Arial",
   "% Output DPI: " ++ toString dpi,
   "% Symbology: ISBN",
   "% Value: " ++ String.mk isbn]
  ++ (if addon ≠ [] then ["% Add-On: " ++ String.mk addon] else [])
  ++ ["% X-Dimension: " ++ fmtFixed 8 x_dim ++ " mm",
      "% Bar Height: " ++ fmtFixed 8 bar_height_mm ++ " mm",
      addonOffsetLine,
      ""]

/-- The fixed block of PostScript abbreviations, and the blank line that
follows it. -/
def preambleLines : List String :=
  ["/bd {bind def} bind def",
   "/c {closepath} bd",
   "/f {fill} bd",
   "/l {lineto} bd",
   "/m {moveto} bd",
   "/n {newpath} bd",
   "/r {rotate} bd",
   "/sc {scale} bd",
   "/s {show} bd",
   "/t {translate} bd",
   ""]

/-- The EAN-13 bar loop of eps.rs: one rectangle per 1-module, the x
cursor advancing by one module width each iteration; guard modules
(first 3, offsets 45-49, last 3) reach down to `guard_bottom`, data
modules only to `bar_bottom`.  (`module_count - 3` is `usize`
subtraction in Rust; the sequence always has 95 modules.) -/
def ean13BarLines (bar_top : ℚ) (module_count : ℕ) : ℚ → ℕ → List ℕ → List String
  | _, _, [] => []
  | x, i, m :: rest =>
    (if m = 1 then
      [draw_bar x x_dim
        (if i < 3 ∨ (45 ≤ i ∧ i ≤ 49) ∨ module_count - 3 ≤ i then guard_bottom
         else bar_bottom)
        bar_top]
    else [])
    ++ ean13BarLines bar_top module_count (x + x_dim) (i + 1) rest

/-- The add-on bar loop of eps.rs. -/
def addonBarLines (addon_bar_top : ℚ) : ℚ → List ℕ → List String
  | _, [] => []
  | ax, m :: rest =>
    (if m = 1 then [draw_bar ax x_dim addon_bar_bottom addon_bar_top] else [])
    ++ addonBarLines addon_bar_top (ax + x_dim) rest

/-- Left-group digit text (digits 2-7 of the ISBN), eps.rs lines 144-150. -/
def leftTextLines (digits : List ℕ) : List String :=
  (List.range 6).map (fun i =>
    draw_text (quiet_zone_left + (((3 + i * 7 : ℕ) : ℚ) + 3.5) * x_dim - font_size * 0.3)
      text_y (toString (digits.getD (i + 1) 0)))

/-- Right-group digit text (digits 8-13 of the ISBN), eps.rs lines 152-159. -/
def rightTextLines (digits : List ℕ) : List String :=
  (List.range 6).map (fun i =>
    draw_text (quiet_zone_left + (((50 + i * 7 : ℕ) : ℚ) + 3.5) * x_dim - font_size * 0.3)
      text_y (toString (digits.getD (i + 7) 0)))

/-- Add-on digit text above the add-on bars, eps.rs lines 174-179. -/
def addonTextLines (addon_digits : List ℕ) (addon_x_start addon_text_y : ℚ) : List String :=
  (List.range 5).map (fun i =>
    draw_text (addon_x_start + (((4 + i * 9 : ℕ) : ℚ) + 3.5) * x_dim - font_size * 0.3)
      addon_text_y (toString (addon_digits.getD i 0)))

/-- Quantity `addon_section_width` in eps.rs: gap modules plus add-on modules plus
2 mm when an add-on was encoded, zero otherwise. -/
def addon_section_width (e5 : Option (List ℕ)) : ℚ :=
  match e5 with
  | some m => addon_gap_modules * x_dim + (m.length : ℚ) * x_dim + 2.0
  | none => 0

/-- Quantity `total_width_mm` in eps.rs: quiet zones, EAN-13 width and add-on
section. -/
def total_width_mm (m13 : List ℕ) (e5 : Option (List ℕ)) : ℚ :=
  quiet_zone_left + (m13.length : ℚ) * x_dim + quiet_zone_right + addon_section_width e5

/-- Quantity `total_height_mm` in eps.rs: `bar_top + 0.5`. -/
def total_height_mm (bar_height_mm : ℚ) : ℚ :=
  (guard_bottom + bar_height_mm) + 0.5

/-- Everything of the EPS document that follows the settings block: the
abbreviation preamble, scale/color/font commands, the first-digit text,
the EAN-13 bars, the left and right digit groups, the add-on block (when
an add-on was encoded) and the final showpage. -/
def epsTail (isbn addon : List Char) (m13 : List ℕ) (e5 : Option (List ℕ))
    (bar_height_mm : ℚ) (addon_bar_top addon_text_y : ℚ) : List String :=
  let bar_top := guard_bottom + bar_height_mm
  let ean13_width_mm := (m13.length : ℚ) * x_dim
  let digits := isbn.map digitVal
  preambleLines
  ++ [fmtFixed 8 scale ++ " " ++ fmtFixed 8 scale ++ " sc",
      "0.000 0.000 0.000 1.000 setcmykcolor",
      "/ArialMT findfont " ++ fmtFixed 7 font_size ++ " scalefont setfont",
      draw_text (quiet_zone_left - font_size * 0.9) text_y (toString (digits.getD 0 0))]
  ++ ean13BarLines bar_top m13.length quiet_zone_left 0 m13
  ++ leftTextLines digits
  ++ rightTextLines digits
  ++ (match e5 with
      | some ms =>
        let addon_digits := addon.map digitVal
        let addon_x_start := quiet_zone_left + ean13_width_mm + addon_gap_modules * x_dim
        addonBarLines addon_bar_top addon_x_start ms
          ++ addonTextLines addon_digits addon_x_start addon_text_y
      | none => [])
  ++ ["showpage"]

/-- The EPS document (as its list of lines) built by `generate_eps` once
the EAN-13 module sequence `m13` and the optional EAN-5 module sequence
`e5` are fixed.  The three arguments `addon_bar_top`, `addon_text_y` and
`addonOffsetLine` are the only places through which the caller-supplied
add-on vertical offset enters, and `dpi` occurs only in the settings
block. -/
def epsDoc (isbn addon : List Char) (m13 : List ℕ) (e5 : Option (List ℕ))
    (bar_height_mm : ℚ) (dpi : ℕ)
    (addon_bar_top addon_text_y : ℚ) (addonOffsetLine : String) : List String :=
  headerLines (ceilQ (total_width_mm m13 e5 * scale)) (ceilQ (total_height_mm bar_height_mm * scale))
      (total_width_mm m13 e5 * scale) (total_height_mm bar_height_mm * scale)
  ++ settingsLines isbn addon bar_height_mm dpi addonOffsetLine
  ++ epsTail isbn addon m13 e5 bar_height_mm addon_bar_top addon_text_y

/-- Function `generate_eps` from eps.rs.  Fails exactly when `encode_ean13` fails;
a non-empty add-on is encoded with `encode_ean5`, an empty one skipped. -/
def generate_eps (isbn addon : List Char) (bar_height_mm : ℚ) (dpi : ℕ)
    (addon_offset_mm : ℚ) : Option (List String) :=
  match encode_ean13 isbn with
  | none => none
  | some ean13_modules =>
    let ean5_modules := if addon ≠ [] then encode_ean5 addon else none
    let bar_top := guard_bottom + bar_height_mm
    let addon_text_y := bar_top - font_size + addon_offset_mm
    let addon_bar_top := addon_text_y - addon_text_baseline_gap
    some (epsDoc isbn addon ean13_modules ean5_modules bar_height_mm dpi
      addon_bar_top addon_text_y
      ("% Add-On Offset: " ++ fmtFixed 4 addon_offset_mm ++ " mm"))

/-- The request record received by the `generate_barcode` command. -/
structure BarcodeRequest where
  isbn : List Char
  addon : List Char
  bar_height_mm : ℚ
  dpi : ℕ
  addon_offset_mm : ℚ

/-- The result record returned by the `generate_barcode` command. -/
structure BarcodeResult where
  success : Bool
  message : String
  eps_content : Option (List String)
  file_path : Option String
deriving DecidableEq

/-- Function `generate_barcode` from lib.rs: format check on the ISBN, checksum
check, format check on the add-on, then `generate_eps`. -/
def generate_barcode (request : BarcodeRequest) : BarcodeResult :=
  if ¬ (request.isbn.length = 13 ∧ request.isbn.all Char.isDigit) then
    ⟨false, "ISBN은 13자리 숫자여야 합니다.", none, none⟩
  else if ¬ validate_isbn13 request.isbn then
    ⟨false, "ISBN 체크디짓이 올바르지 않습니다.", none, none⟩
  else if request.addon ≠ []
      ∧ ¬ (request.addon.length = 5 ∧ request.addon.all Char.isDigit) then
    ⟨false, "분류번호는 5자리 숫자여야 합니다.", none, none⟩
  else
    match generate_eps request.isbn request.addon request.bar_height_mm
        request.dpi request.addon_offset_mm with
    | some content => ⟨true, "바코드가 생성되었습니다.", some content, none⟩
    | none => ⟨false, "바코드 생성에 실패했습니다.", none, none⟩

/-- The string "9780306406157", a 13-digit string with valid checksum. -/
def isbnA : List Char := ['9', '7', '8', '0', '3', '0', '6', '4', '0', '6', '1', '5', '7']

/-- The string "9780306406158", the checksum-invalid variant of `isbnA`. -/
def isbnB : List Char := ['9', '7', '8', '0', '3', '0', '6', '4', '0', '6', '1', '5', '8']

/-- The string "9788969930460", another 13-digit string with the same leading digit
as `isbnA`. -/
def isbnC : List Char := ['9', '7', '8', '8', '9', '6', '9', '9', '3', '0', '4', '6', '0']

/-- The string "978030640615", a 12-character digit string. -/
def isbnShort : List Char := ['9', '7', '8', '0', '3', '0', '6', '4', '0', '6', '1', '5']

/-- The string "12345", a well-formed add-on. -/
def addonA : List Char := ['1', '2', '3', '4', '5']

/-- The string "00000": EAN-5 check digit 0. -/
def addonZ : List Char := ['0', '0', '0', '0', '0']

/-- The string "50050": also EAN-5 check digit 0. -/
def addonZ2 : List Char := ['5', '0', '0', '5', '0']

/-- The string "1234", a malformed (4-character) add-on. -/
def addonBad : List Char := ['1', '2', '3', '4']

/-- First six lines of the settings block (everything before the
"% Output DPI" line). -/
def settingsFront : List String :=
  ["%SETTINGS",
   "% Color: CMYK",
   "% Background: 0.000 0.000 0.000 0.000",
   "% Foreground: 0.000 0.000 0.000 1.000",
   "% Human Readable: Yes",
   "% Text Font: Arial"]

/-- Settings lines after the "% Output DPI" line. -/
def settingsBack (isbn addon : List Char) (bar_height_mm : ℚ)
    (addonOffsetLine : String) : List String :=
  ["% Symbology: ISBN", "% Value: " ++ String.mk isbn]
  ++ (if addon ≠ [] then ["% Add-On: " ++ String.mk addon] else [])
  ++ ["% X-Dimension: " ++ fmtFixed 8 x_dim ++ " mm",
      "% Bar Height: " ++ fmtFixed 8 bar_height_mm ++ " mm",
      addonOffsetLine,
      ""]

/-- The total width claimed by the spec: quiet zones, 95 modules, and the
add-on section `7·0.33 + 47·0.33 + 2` when an add-on is encoded. -/
def specTotalWidth (addonEncoded : Bool) : ℚ :=
  3.63 + 95 * 0.33 + 2.31 + (if addonEncoded then 7 * 0.33 + 47 * 0.33 + 2.0 else 0)

/-- The total height claimed by the spec: `1.093 + bar_height + 0.5`. -/
def specTotalHeight (bar_height_mm : ℚ) : ℚ := 1.093 + bar_height_mm + 0.5

/-- Whether `generate_eps` encodes an add-on: the supplementary string is
non-empty and `encode_ean5` accepts it. -/
def specAddonEncoded (addon : List Char) : Bool :=
  !addon.isEmpty && (encode_ean5 addon).isSome

/-! ## Theorems -/

theorem digitVal_lt_ten {c : Char} (hc : c.isDigit = true) : digitVal c < 10 := by
  simp only [Char.isDigit, Bool.and_eq_true, decide_eq_true_eq] at hc
  have h2 := hc.2
  rw [UInt32.le_def, BitVec.le_def] at h2
  have h3 : c.val.toBitVec.toNat ≤ 57 := by simpa using h2
  unfold digitVal Char.toNat UInt32.toNat
  omega

theorem getD_map (f : Char → ℕ) (l : List Char) (k : ℕ) (d : Char) :
    (l.map f).getD k (f d) = f (l.getD k d) := by
  induction l generalizing k with
  | nil => simp [List.getD]
  | cons a t ih =>
    cases k with
    | zero => simp [List.getD]
    | succ k => simpa [List.getD] using ih k

/-- Every digit drawn from a string of decimal digits is below 10. -/
theorem digits_getD_lt {l : List Char} (h : l.all Char.isDigit = true)
    (k : ℕ) (hk : k < l.length) : digitVal (l.getD k '0') < 10 := by
  rw [List.all_eq_true] at h
  have hmem : l.getD k '0' ∈ l := by
    rw [List.getD_eq_getElem?_getD, List.getElem?_eq_getElem hk]
    exact List.getElem_mem hk
  exact digitVal_lt_ten (h _ hmem)

theorem L_CODES_length {d : ℕ} (hd : d < 10) : (strModules (L_CODES d)).length = 7 := by
  interval_cases d <;> rfl

theorem G_CODES_length {d : ℕ} (hd : d < 10) : (strModules (G_CODES d)).length = 7 := by
  interval_cases d <;> rfl

theorem R_CODES_length {d : ℕ} (hd : d < 10) : (strModules (R_CODES d)).length = 7 := by
  interval_cases d <;> rfl

theorem FIRST_DIGIT_PATTERNS_length {d : ℕ} (hd : d < 10) :
    (FIRST_DIGIT_PATTERNS d).data.length = 6 := by
  interval_cases d <;> rfl

theorem EAN5_PATTERNS_length {d : ℕ} (hd : d < 10) :
    (EAN5_PATTERNS d).data.length = 5 := by
  interval_cases d <;> rfl

theorem enumFrom_flatMap_eq_range {β : Type} (n : ℕ) (l : List Char)
    (F : ℕ × Char → List β) :
    (List.enumFrom n l).flatMap F
      = (List.range l.length).flatMap (fun i => F (n + i, l.getD i ' ')) := by
  induction l generalizing n F with
  | nil => rfl
  | cons a t ih =>
    rw [show List.enumFrom n (a :: t) = (n, a) :: List.enumFrom (n + 1) t from rfl,
      List.flatMap_cons, ih (n + 1) F, List.length_cons, List.range_succ_eq_map,
      List.flatMap_cons, List.flatMap_map]
    simp only [List.getD_cons_zero, List.getD_cons_succ, Nat.add_zero, Function.comp_def]
    have harg : (fun i => F (n + 1 + i, t.getD i ' '))
        = (fun i => F (n + Nat.succ i, t.getD i ' ')) := by
      funext i
      rw [show n + 1 + i = n + Nat.succ i by omega]
    rw [harg]

/-- Enumeration-driven flat-mapping over a list is the same as flat-mapping the
positions, reading the element at each position. -/
theorem enum_flatMap_eq_range {β : Type} (l : List Char) (F : ℕ × Char → List β) :
    l.enum.flatMap F
      = (List.range l.length).flatMap (fun i => F (i, l.getD i ' ')) := by
  rw [show l.enum = List.enumFrom 0 l from rfl, enumFrom_flatMap_eq_range]
  simp

theorem digits_getD (isbn : List Char) (k : ℕ) :
    (isbn.map digitVal).getD k 0 = digitVal (isbn.getD k '0') :=
  getD_map digitVal isbn k '0'

/-- Structural form of `encode_ean13` on well-formed input. -/
theorem encode_ean13_structure (isbn : List Char) (h13 : isbn.length = 13)
    (hdig : isbn.all Char.isDigit = true) :
    encode_ean13 isbn
      = some ([1, 0, 1]
          ++ (List.range 6).flatMap (fun i => specLeftCode isbn i)
          ++ [0, 1, 0, 1, 0]
          ++ (List.range 6).flatMap (fun i => specRightCode isbn i)
          ++ [1, 0, 1]) := by
  have hd0lt : digitVal (isbn.getD 0 '0') < 10 := digits_getD_lt hdig 0 (by omega)
  unfold encode_ean13
  rw [if_pos ⟨h13, hdig⟩]
  refine congrArg some ?_
  simp only [digits_getD]
  rw [enum_flatMap_eq_range, FIRST_DIGIT_PATTERNS_length hd0lt,
    List.range'_eq_map_range, List.flatMap_map]
  simp only [specLeftCode, specRightCode, ean13TableChoices, Function.comp_def, digits_getD]
  rfl

/-- Structural form of `encode_ean5` on well-formed input. -/
theorem encode_ean5_structure (addon : List Char) (h5 : addon.length = 5)
    (hdig : addon.all Char.isDigit = true) :
    encode_ean5 addon
      = some ([1, 0, 1, 1]
          ++ (List.range 5).flatMap (fun i => specAddonCode addon i)) := by
  have hck : ean5_check (addon.map digitVal) < 10 := Nat.mod_lt _ (by omega)
  unfold encode_ean5
  rw [if_pos ⟨h5, hdig⟩]
  refine congrArg some ?_
  rw [enum_flatMap_eq_range, EAN5_PATTERNS_length hck]
  simp only [specAddonCode, ean5TableChoices, digits_getD]
  rfl

/-- Length of each left-half 7-bit code block. -/
theorem specLeftCode_length {isbn : List Char} (h13 : isbn.length = 13)
    (hdig : isbn.all Char.isDigit = true) {i : ℕ} (hi : i < 6) :
    (specLeftCode isbn i).length = 7 := by
  have hd : digitVal (isbn.getD (i + 1) '0') < 10 :=
    digits_getD_lt hdig (i + 1) (by omega)
  unfold specLeftCode
  split
  · exact L_CODES_length hd
  · exact G_CODES_length hd

theorem specRightCode_length {isbn : List Char} (h13 : isbn.length = 13)
    (hdig : isbn.all Char.isDigit = true) {i : ℕ} (hi : i < 6) :
    (specRightCode isbn i).length = 7 := by
  have hd : digitVal (isbn.getD (7 + i) '0') < 10 :=
    digits_getD_lt hdig (7 + i) (by omega)
  unfold specRightCode
  exact R_CODES_length hd

theorem specAddonCode_length {addon : List Char} (h5 : addon.length = 5)
    (hdig : addon.all Char.isDigit = true) {i : ℕ} (hi : i < 5) :
    (specAddonCode addon i).length = 7 + (if i < 4 then 2 else 0) := by
  have hd : digitVal (addon.getD i '0') < 10 := digits_getD_lt hdig i (by omega)
  unfold specAddonCode
  rw [List.length_append]
  congr 1
  · split
    · exact L_CODES_length hd
    · exact G_CODES_length hd
  · split <;> rfl

/-- The encoded EAN-13 module sequence has exactly 95 modules. -/
theorem encode_ean13_length {isbn : List Char} {m : List ℕ}
    (hm : encode_ean13 isbn = some m) : m.length = 95 := by
  have hguard : isbn.length = 13 ∧ isbn.all Char.isDigit = true := by
    by_contra hc
    rw [encode_ean13, if_neg hc] at hm
    exact Option.noConfusion hm
  rw [encode_ean13_structure isbn hguard.1 hguard.2] at hm
  cases hm
  rw [show List.range 6 = [0, 1, 2, 3, 4, 5] from rfl]
  simp only [List.flatMap_cons, List.flatMap_nil, List.append_nil, List.length_append,
    List.length_cons, List.length_nil]
  rw [specLeftCode_length hguard.1 hguard.2 (by omega : (0:ℕ) < 6),
    specLeftCode_length hguard.1 hguard.2 (by omega : (1:ℕ) < 6),
    specLeftCode_length hguard.1 hguard.2 (by omega : (2:ℕ) < 6),
    specLeftCode_length hguard.1 hguard.2 (by omega : (3:ℕ) < 6),
    specLeftCode_length hguard.1 hguard.2 (by omega : (4:ℕ) < 6),
    specLeftCode_length hguard.1 hguard.2 (by omega : (5:ℕ) < 6),
    specRightCode_length hguard.1 hguard.2 (by omega : (0:ℕ) < 6),
    specRightCode_length hguard.1 hguard.2 (by omega : (1:ℕ) < 6),
    specRightCode_length hguard.1 hguard.2 (by omega : (2:ℕ) < 6),
    specRightCode_length hguard.1 hguard.2 (by omega : (3:ℕ) < 6),
    specRightCode_length hguard.1 hguard.2 (by omega : (4:ℕ) < 6),
    specRightCode_length hguard.1 hguard.2 (by omega : (5:ℕ) < 6)]

/-- The encoded EAN-5 module sequence has exactly 47 modules. -/
theorem encode_ean5_length {addon : List Char} {m : List ℕ}
    (hm : encode_ean5 addon = some m) : m.length = 47 := by
  have hguard : addon.length = 5 ∧ addon.all Char.isDigit = true := by
    by_contra hc
    rw [encode_ean5, if_neg hc] at hm
    exact Option.noConfusion hm
  rw [encode_ean5_structure addon hguard.1 hguard.2] at hm
  cases hm
  rw [show List.range 5 = [0, 1, 2, 3, 4] from rfl]
  simp only [List.flatMap_cons, List.flatMap_nil, List.append_nil, List.length_append,
    List.length_cons, List.length_nil]
  rw [specAddonCode_length hguard.1 hguard.2 (by omega : (0:ℕ) < 5),
    specAddonCode_length hguard.1 hguard.2 (by omega : (1:ℕ) < 5),
    specAddonCode_length hguard.1 hguard.2 (by omega : (2:ℕ) < 5),
    specAddonCode_length hguard.1 hguard.2 (by omega : (3:ℕ) < 5),
    specAddonCode_length hguard.1 hguard.2 (by omega : (4:ℕ) < 5)]
  norm_num

theorem encode_ean13_isSome (isbn : List Char) :
    (encode_ean13 isbn).isSome = true ↔ isbn.length = 13 ∧ isbn.all Char.isDigit = true := by
  unfold encode_ean13
  split
  · simp_all
  · simp_all

theorem encode_ean5_isSome (addon : List Char) :
    (encode_ean5 addon).isSome = true ↔ addon.length = 5 ∧ addon.all Char.isDigit = true := by
  unfold encode_ean5
  split
  · simp_all
  · simp_all

/-- C1: `encode_ean13` returns a module sequence iff the input consists of
exactly 13 decimal-digit characters (checksum not required), and every
returned sequence is the start guard 101, six 7-bit codes from table L or
G at positions 2-7 as dictated by the first-digit pattern table indexed by
the leading digit, the center guard 01010, six 7-bit codes from table R
for digits 8-13, and the end guard 101 — 95 modules in total. -/
theorem C1_encode_ean13_spec (isbn : List Char) :
    ((encode_ean13 isbn).isSome = true
        ↔ isbn.length = 13 ∧ isbn.all Char.isDigit = true)
      ∧ ∀ m, encode_ean13 isbn = some m →
          m = [1, 0, 1]
              ++ (List.range 6).flatMap (fun i => specLeftCode isbn i)
              ++ [0, 1, 0, 1, 0]
              ++ (List.range 6).flatMap (fun i => specRightCode isbn i)
              ++ [1, 0, 1]
            ∧ m.length = 95 := by
  constructor
  · exact encode_ean13_isSome isbn
  · intro m hm
    have hguard : isbn.length = 13 ∧ isbn.all Char.isDigit = true := by
      by_contra hc
      rw [encode_ean13, if_neg hc] at hm
      exact Option.noConfusion hm
    refine ⟨?_, encode_ean13_length hm⟩
    have h := encode_ean13_structure isbn hguard.1 hguard.2
    rw [hm] at h
    exact Option.some.inj h

theorem C1_witness :
    (encode_ean13 isbnA).isSome = true
      ∧ ((encode_ean13 isbnA).getD []).length = 95 :=
  ⟨(C1_encode_ean13_spec isbnA).1.mpr (by decide),
   ((C1_encode_ean13_spec isbnA).2 ((encode_ean13 isbnA).getD []) (by decide)).2⟩

/-- C2: `encode_ean5` returns a module sequence iff the input consists of
exactly 5 decimal-digit characters; the sequence is the start marker 1011
followed by each digit's 7-bit L/G code — the choice per position taken
from the EAN-5 pattern table indexed by the check digit
(3·d0+9·d1+3·d2+9·d3+3·d4 mod 10) — with a 01 separator between
consecutive digits only, 47 modules in total; the check digit selects the
pattern but is never itself rendered as a digit code. -/
theorem C2_encode_ean5_spec (addon : List Char) :
    ((encode_ean5 addon).isSome = true
        ↔ addon.length = 5 ∧ addon.all Char.isDigit = true)
      ∧ ∀ m, encode_ean5 addon = some m →
          m = [1, 0, 1, 1] ++ (List.range 5).flatMap (fun i => specAddonCode addon i)
            ∧ m.length = 47 := by
  constructor
  · exact encode_ean5_isSome addon
  · intro m hm
    have hguard : addon.length = 5 ∧ addon.all Char.isDigit = true := by
      by_contra hc
      rw [encode_ean5, if_neg hc] at hm
      exact Option.noConfusion hm
    refine ⟨?_, encode_ean5_length hm⟩
    have h := encode_ean5_structure addon hguard.1 hguard.2
    rw [hm] at h
    exact Option.some.inj h

theorem C2_witness :
    (encode_ean5 addonA).isSome = true
      ∧ ((encode_ean5 addonA).getD []).length = 47 :=
  ⟨(C2_encode_ean5_spec addonA).1.mpr (by decide),
   ((C2_encode_ean5_spec addonA).2 ((encode_ean5 addonA).getD []) (by decide)).2⟩

/-- C3: `validate_isbn13` returns true iff the input has exactly 13
characters, all decimal digits, and the sum of the digits weighted
alternately 1 and 3 (weight 1 at index 0) is divisible by 10; otherwise it
returns false (no error). -/
theorem C3_validate_isbn13_spec (isbn : List Char) :
    validate_isbn13 isbn = true
      ↔ isbn.length = 13 ∧ isbn.all Char.isDigit = true
          ∧ ((isbn.map digitVal).enum.map
                (fun p => (if p.1 % 2 = 0 then 1 else 3) * p.2)).sum % 10 = 0 := by
  have hfun : (fun p : ℕ × ℕ => if p.1 % 2 = 0 then p.2 else p.2 * 3)
      = (fun p : ℕ × ℕ => (if p.1 % 2 = 0 then 1 else 3) * p.2) := by
    funext p
    split <;> ring
  unfold validate_isbn13
  rw [hfun]
  split
  case isTrue h =>
    simp only [beq_iff_eq]
    exact ⟨fun hs => ⟨h.1, h.2, hs⟩, fun hs => hs.2.2⟩
  case isFalse h =>
    constructor
    · intro h'
      exact absurd h' (by simp)
    · intro hs
      exact absurd ⟨hs.1, hs.2.1⟩ h

/-- C6: which code table (L vs G) is used at a given position is a
function of the leading digit alone (EAN-13) and of the computed check
digit alone (EAN-5): two valid inputs agreeing on that selector get the
identical per-position table-choice sequence. -/
theorem C6_table_choice_selector_only :
    (∀ isbn1 isbn2 : List Char,
        isbn1.length = 13 → isbn1.all Char.isDigit = true →
        isbn2.length = 13 → isbn2.all Char.isDigit = true →
        isbn1.getD 0 '0' = isbn2.getD 0 '0' →
        ean13TableChoices isbn1 = ean13TableChoices isbn2)
    ∧ (∀ a1 a2 : List Char,
        a1.length = 5 → a1.all Char.isDigit = true →
        a2.length = 5 → a2.all Char.isDigit = true →
        ean5_check (a1.map digitVal) = ean5_check (a2.map digitVal) →
        ean5TableChoices a1 = ean5TableChoices a2) := by
  constructor
  · intro a b _ _ _ _ h
    unfold ean13TableChoices
    rw [h]
  · intro a b _ _ _ _ h
    unfold ean5TableChoices
    rw [h]

theorem C6_witness :
    ean13TableChoices isbnA = ean13TableChoices isbnC
      ∧ ean5TableChoices addonZ = ean5TableChoices addonZ2 :=
  ⟨C6_table_choice_selector_only.1 isbnA isbnC (by decide) (by decide) (by decide)
      (by decide) (by decide),
   C6_table_choice_selector_only.2 addonZ addonZ2 (by decide) (by decide) (by decide)
      (by decide) (by decide)⟩

theorem ratFloor_eq_floor (q : ℚ) : ratFloor q = ⌊q⌋ := (Rat.floor_def).symm

theorem ceilQ_eq_ceil (q : ℚ) : ceilQ q = ⌈q⌉ := by
  rw [ceilQ, ratFloor_eq_floor, Int.floor_neg, neg_neg]

theorem settingsLines_split (isbn addon : List Char) (h : ℚ) (dpi : ℕ) (ol : String) :
    settingsLines isbn addon h dpi ol
      = settingsFront ++ ("% Output DPI: " ++ toString dpi)
          :: settingsBack isbn addon h ol := rfl

theorem generate_eps_encodes {isbn addon : List Char} {h : ℚ} {dpi : ℕ} {off : ℚ}
    {doc : List String} (hd : generate_eps isbn addon h dpi off = some doc) :
    ∃ m13, encode_ean13 isbn = some m13 := by
  cases hm : encode_ean13 isbn with
  | none =>
    unfold generate_eps at hd
    rw [hm] at hd
    exact Option.noConfusion hd
  | some m => exact ⟨m, rfl⟩

/-- Unfolding of `generate_eps` once the EAN-13 encoding succeeds. -/
theorem generate_eps_eq {isbn : List Char} (addon : List Char) {m13 : List ℕ}
    (hm : encode_ean13 isbn = some m13) (h : ℚ) (dpi : ℕ) (off : ℚ) :
    generate_eps isbn addon h dpi off
      = some (epsDoc isbn addon m13 (if addon ≠ [] then encode_ean5 addon else none)
          h dpi
          (guard_bottom + h - font_size + off - addon_text_baseline_gap)
          (guard_bottom + h - font_size + off)
          ("% Add-On Offset: " ++ fmtFixed 4 off ++ " mm")) := by
  unfold generate_eps
  rw [hm]

theorem getElem?_append_cons_ne {α : Type} (P S : List α) (a b : α) (n i : ℕ)
    (hP : P.length = n) (hi : i ≠ n) :
    (P ++ a :: S)[i]? = (P ++ b :: S)[i]? := by
  rcases Nat.lt_or_ge i n with hlt | hge
  · rw [List.getElem?_append_left (by omega), List.getElem?_append_left (by omega)]
  · have hgt : n < i := lt_of_le_of_ne hge (Ne.symm hi)
    rw [List.getElem?_append_right (by omega), List.getElem?_append_right (by omega)]
    have hk : i - P.length = (i - P.length - 1) + 1 := by omega
    rw [hk]
    simp

theorem getElem?_append_cons_self {α : Type} (P S : List α) (a : α) (n : ℕ)
    (hP : P.length = n) : (P ++ a :: S)[n]? = some a := by
  rw [List.getElem?_append_right (by omega)]
  simp [hP]

theorem insert_line_eq {α : Type} (H L9 L4 T : List α) (a : α)
    (h15 : (H ++ L9).length = 15) :
    H ++ (L9 ++ a :: L4) ++ T
      = (H ++ (L9 ++ L4) ++ T).take 15 ++ a :: (H ++ (L9 ++ L4) ++ T).drop 15 := by
  have hA : H ++ (L9 ++ L4) ++ T = (H ++ L9) ++ (L4 ++ T) := by
    simp [List.append_assoc]
  rw [hA, ← h15, List.take_left, List.drop_left]
  simp [List.append_assoc]

theorem addonBarLines_length_param (abt abt' : ℚ) (ax ax' : ℚ) (l : List ℕ) :
    (addonBarLines abt ax l).length = (addonBarLines abt' ax' l).length := by
  induction l generalizing ax ax' with
  | nil => rfl
  | cons m rest ih =>
    unfold addonBarLines
    rw [List.length_append, List.length_append, ih (ax + x_dim) (ax' + x_dim)]
    split
    · rw [List.length_singleton, List.length_singleton]
    · rfl

/-- The line count of the document does not depend on the add-on bar top,
the add-on text baseline or the offset settings line. -/
theorem epsDoc_length_param (isbn addon : List Char) (m13 : List ℕ)
    (e5 : Option (List ℕ)) (h : ℚ) (dpi : ℕ)
    (abt aty abt' aty' : ℚ) (ol ol' : String) :
    (epsDoc isbn addon m13 e5 h dpi abt aty ol).length
      = (epsDoc isbn addon m13 e5 h dpi abt' aty' ol').length := by
  unfold epsDoc epsTail settingsLines
  cases e5 with
  | none => simp [List.length_append]
  | some ms =>
    simp only [List.length_append]
    rw [addonBarLines_length_param abt abt'
      (quiet_zone_left + (m13.length : ℚ) * x_dim + addon_gap_modules * x_dim)
      (quiet_zone_left + (m13.length : ℚ) * x_dim + addon_gap_modules * x_dim) ms]
    simp [addonTextLines, List.length_append]

theorem epsDoc_getElem_one (isbn addon : List Char) (m13 : List ℕ)
    (e5 : Option (List ℕ)) (h : ℚ) (dpi : ℕ) (abt aty : ℚ) (ol : String) :
    (epsDoc isbn addon m13 e5 h dpi abt aty ol)[1]?
      = some ("%%BoundingBox: 0 0 " ++ toString (ceilQ (total_width_mm m13 e5 * scale))
          ++ " " ++ toString (ceilQ (total_height_mm h * scale))) := by
  unfold epsDoc
  simp only [List.append_assoc]
  rw [List.getElem?_append_left (by simp [headerLines])]
  rfl

theorem epsDoc_getElem_two (isbn addon : List Char) (m13 : List ℕ)
    (e5 : Option (List ℕ)) (h : ℚ) (dpi : ℕ) (abt aty : ℚ) (ol : String) :
    (epsDoc isbn addon m13 e5 h dpi abt aty ol)[2]?
      = some ("%%HiResBoundingBox: 0 0 " ++ fmtFixed 5 (total_width_mm m13 e5 * scale)
          ++ " " ++ fmtFixed 5 (total_height_mm h * scale)) := by
  unfold epsDoc
  simp only [List.append_assoc]
  rw [List.getElem?_append_left (by simp [headerLines])]
  rfl

/-- C7: the dpi parameter is recorded in metadata only: two documents that
differ only in dpi agree line for line except at line index 12, the
"% Output DPI" settings comment; in particular both bounding-box lines
and every rectangle and text primitive are unchanged. -/
theorem C7_dpi_metadata_only (isbn addon : List Char) (h off : ℚ)
    (dpi1 dpi2 : ℕ) (doc1 doc2 : List String)
    (h1 : generate_eps isbn addon h dpi1 off = some doc1)
    (h2 : generate_eps isbn addon h dpi2 off = some doc2) :
    doc1.length = doc2.length
      ∧ doc1[12]? = some ("% Output DPI: " ++ toString dpi1)
      ∧ doc2[12]? = some ("% Output DPI: " ++ toString dpi2)
      ∧ ∀ i, i ≠ 12 → doc1[i]? = doc2[i]? := by
  obtain ⟨m13, hm⟩ := generate_eps_encodes h1
  rw [generate_eps_eq addon hm h dpi1 off] at h1
  rw [generate_eps_eq addon hm h dpi2 off] at h2
  obtain rfl := Option.some.inj h1
  obtain rfl := Option.some.inj h2
  set e5 := (if addon ≠ [] then encode_ean5 addon else none) with he5
  set abt := guard_bottom + h - font_size + off - addon_text_baseline_gap with habt
  set aty := guard_bottom + h - font_size + off with haty
  set ol := "% Add-On Offset: " ++ fmtFixed 4 off ++ " mm" with hol
  have hdecomp : ∀ d : ℕ, epsDoc isbn addon m13 e5 h d abt aty ol
      = (headerLines (ceilQ (total_width_mm m13 e5 * scale))
            (ceilQ (total_height_mm h * scale)) (total_width_mm m13 e5 * scale)
            (total_height_mm h * scale) ++ settingsFront)
          ++ ("% Output DPI: " ++ toString d)
            :: (settingsBack isbn addon h ol ++ epsTail isbn addon m13 e5 h abt aty) := by
    intro d
    unfold epsDoc
    rw [settingsLines_split]
    simp only [List.append_assoc, List.cons_append]
  have hP : (headerLines (ceilQ (total_width_mm m13 e5 * scale))
      (ceilQ (total_height_mm h * scale)) (total_width_mm m13 e5 * scale)
      (total_height_mm h * scale) ++ settingsFront).length = 12 := by
    simp [headerLines, settingsFront]
  refine ⟨?_, ?_, ?_, ?_⟩
  · rw [hdecomp dpi1, hdecomp dpi2]
    simp
  · rw [hdecomp dpi1]
    exact getElem?_append_cons_self _ _ _ 12 hP
  · rw [hdecomp dpi2]
    exact getElem?_append_cons_self _ _ _ 12 hP
  · intro i hi
    rw [hdecomp dpi1, hdecomp dpi2]
    exact getElem?_append_cons_ne _ _ _ _ 12 i hP hi

theorem C7_witness :
    ((generate_eps isbnA [] 15 300 0).get (by decide))[0]?
        = ((generate_eps isbnA [] 15 600 0).get (by decide))[0]?
      ∧ ((generate_eps isbnA [] 15 300 0).get (by decide))[12]?
        = some ("% Output DPI: " ++ toString (300 : ℕ)) := by
  have h := C7_dpi_metadata_only isbnA [] 15 0 300 600
    ((generate_eps isbnA [] 15 300 0).get (by decide))
    ((generate_eps isbnA [] 15 600 0).get (by decide))
    (Option.some_get (by decide)).symm (Option.some_get (by decide)).symm
  exact ⟨h.2.2.2 0 (by decide), h.2.1⟩

/-- C10: the document dimensions are independent of the add-on vertical
offset: two calls differing only in `addon_offset_mm` produce documents
of identical length with identical bounding-box declaration lines, and
each document is the fixed skeleton `epsDoc` applied to static arguments
plus the offset-dependent add-on bar top, add-on text baseline and
"% Add-On Offset" settings line — the only three places the offset
enters. -/
theorem C10_addon_offset_frame (isbn addon : List Char) (h : ℚ) (dpi : ℕ)
    (off1 off2 : ℚ) (doc1 doc2 : List String)
    (h1 : generate_eps isbn addon h dpi off1 = some doc1)
    (h2 : generate_eps isbn addon h dpi off2 = some doc2) :
    doc1.length = doc2.length
      ∧ doc1[1]? = doc2[1]?
      ∧ doc1[2]? = doc2[2]?
      ∧ doc1 = epsDoc isbn addon ((encode_ean13 isbn).getD [])
          (if addon ≠ [] then encode_ean5 addon else none) h dpi
          (guard_bottom + h - font_size + off1 - addon_text_baseline_gap)
          (guard_bottom + h - font_size + off1)
          ("% Add-On Offset: " ++ fmtFixed 4 off1 ++ " mm")
      ∧ doc2 = epsDoc isbn addon ((encode_ean13 isbn).getD [])
          (if addon ≠ [] then encode_ean5 addon else none) h dpi
          (guard_bottom + h - font_size + off2 - addon_text_baseline_gap)
          (guard_bottom + h - font_size + off2)
          ("% Add-On Offset: " ++ fmtFixed 4 off2 ++ " mm") := by
  obtain ⟨m13, hm⟩ := generate_eps_encodes h1
  rw [generate_eps_eq addon hm h dpi off1] at h1
  rw [generate_eps_eq addon hm h dpi off2] at h2
  obtain rfl := Option.some.inj h1
  obtain rfl := Option.some.inj h2
  have hg : (encode_ean13 isbn).getD [] = m13 := by rw [hm]; rfl
  rw [hg]
  refine ⟨?_, ?_, ?_, rfl, rfl⟩
  · exact epsDoc_length_param isbn addon m13 _ h dpi _ _ _ _ _ _
  · rw [epsDoc_getElem_one, epsDoc_getElem_one]
  · rw [epsDoc_getElem_two, epsDoc_getElem_two]

theorem C10_witness :
    ((generate_eps isbnA addonA 15 300 0).get (by decide)).length
        = ((generate_eps isbnA addonA 15 300 5).get (by decide)).length
      ∧ ((generate_eps isbnA addonA 15 300 0).get (by decide))[1]?
        = ((generate_eps isbnA addonA 15 300 5).get (by decide))[1]? := by
  have h := C10_addon_offset_frame isbnA addonA 15 300 0 5
    ((generate_eps isbnA addonA 15 300 0).get (by decide))
    ((generate_eps isbnA addonA 15 300 5).get (by decide))
    (Option.some_get (by decide)).symm (Option.some_get (by decide)).symm
  exact ⟨h.1, h.2.1⟩

/-- C4: for every successful `generate_eps` call the total width is
`3.63 + 95·0.33 + 2.31` plus an add-on section of `7·0.33 + 47·0.33 + 2`
exactly when an add-on is encoded, the total height is
`1.093 + bar_height + 0.5`, the primary bounding-box line carries the
ceiling of each dimension times 2.83464567, and a non-rounded
high-precision bounding box is declared as well. -/
theorem C4_bounding_box (isbn addon : List Char) (h : ℚ) (dpi : ℕ) (off : ℚ)
    (doc : List String) (hdoc : generate_eps isbn addon h dpi off = some doc) :
    doc[1]? = some ("%%BoundingBox: 0 0 "
        ++ toString ⌈specTotalWidth (specAddonEncoded addon) * 2.83464567⌉
        ++ " " ++ toString ⌈specTotalHeight h * 2.83464567⌉)
      ∧ doc[2]? = some ("%%HiResBoundingBox: 0 0 "
        ++ fmtFixed 5 (specTotalWidth (specAddonEncoded addon) * 2.83464567)
        ++ " " ++ fmtFixed 5 (specTotalHeight h * 2.83464567)) := by
  obtain ⟨m13, hm⟩ := generate_eps_encodes hdoc
  rw [generate_eps_eq addon hm h dpi off] at hdoc
  obtain rfl := Option.some.inj hdoc
  have h95 : m13.length = 95 := encode_ean13_length hm
  have hW : total_width_mm m13 (if addon ≠ [] then encode_ean5 addon else none)
      = specTotalWidth (specAddonEncoded addon) := by
    unfold total_width_mm addon_section_width specTotalWidth specAddonEncoded
    rw [h95]
    by_cases ha : addon = []
    · subst ha
      norm_num [quiet_zone_left, quiet_zone_right, x_dim]
    · rw [if_pos ha]
      have hne : addon.isEmpty = false := by
        cases addon with
        | nil => exact absurd rfl ha
        | cons c t => rfl
      cases he : encode_ean5 addon with
      | none =>
        simp only [he, hne, Option.isSome_none, Bool.and_false, Bool.false_eq_true,
          if_false]
        norm_num [quiet_zone_left, quiet_zone_right, x_dim]
      | some m5 =>
        have h47 : m5.length = 47 := encode_ean5_length he
        simp only [he, hne, Option.isSome_some, Bool.and_true, Bool.not_false,
          if_true, h47]
        norm_num [quiet_zone_left, quiet_zone_right, x_dim, addon_gap_modules]
  have hH : total_height_mm h = specTotalHeight h := by
    unfold total_height_mm specTotalHeight guard_bottom
    norm_num
  have hscale : scale = 2.83464567 := rfl
  constructor
  · rw [epsDoc_getElem_one, hW, hH, hscale, ceilQ_eq_ceil, ceilQ_eq_ceil]
  · rw [epsDoc_getElem_two, hW, hH, hscale]

theorem C4_witness :
    ((generate_eps isbnA addonA 15 300 0).get (by decide))[1]?
        = some ("%%BoundingBox: 0 0 "
            ++ toString ⌈specTotalWidth (specAddonEncoded addonA) * 2.83464567⌉
            ++ " " ++ toString ⌈specTotalHeight 15 * 2.83464567⌉)
      ∧ ((generate_eps isbnA addonA 15 300 0).get (by decide))[2]?
        = some ("%%HiResBoundingBox: 0 0 "
            ++ fmtFixed 5 (specTotalWidth (specAddonEncoded addonA) * 2.83464567)
            ++ " " ++ fmtFixed 5 (specTotalHeight 15 * 2.83464567)) :=
  C4_bounding_box isbnA addonA 15 300 0
    ((generate_eps isbnA addonA 15 300 0).get (by decide))
    (Option.some_get (by decide)).symm

/-- C8: once the command layer's validation passes — 13 decimal digits
with a valid checksum, and an empty or 5-digit supplementary code —
`generate_eps` always returns a document, so the internal
encoding-failure branch of `generate_barcode` is unreachable under that
precondition. -/
theorem C8_encoding_never_fails (isbn addon : List Char) (h : ℚ) (dpi : ℕ) (off : ℚ)
    (h13 : isbn.length = 13) (hdig : isbn.all Char.isDigit = true)
    (hck : validate_isbn13 isbn = true)
    (haddon : addon = [] ∨ (addon.length = 5 ∧ addon.all Char.isDigit = true)) :
    (generate_eps isbn addon h dpi off).isSome = true
      ∧ (generate_barcode ⟨isbn, addon, h, dpi, off⟩).success = true
      ∧ (generate_barcode ⟨isbn, addon, h, dpi, off⟩).message
          ≠ "바코드 생성에 실패했습니다." := by
  have henc : (encode_ean13 isbn).isSome = true :=
    (encode_ean13_isSome isbn).mpr ⟨h13, hdig⟩
  obtain ⟨m13, hm⟩ := Option.isSome_iff_exists.mp henc
  have hsome := generate_eps_eq addon hm h dpi off
  refine ⟨by rw [hsome]; rfl, ?_⟩
  unfold generate_barcode
  rw [if_neg (not_not_intro ⟨h13, hdig⟩), if_neg (not_not_intro hck)]
  have haddon' : ¬ (addon ≠ [] ∧ ¬ (addon.length = 5 ∧ addon.all Char.isDigit = true)) := by
    rcases haddon with ha | ha
    · intro hc
      exact hc.1 ha
    · intro hc
      exact hc.2 ha
  rw [if_neg haddon']
  rw [hsome]
  exact ⟨rfl, fun hc => absurd hc
    (by decide : ¬ ("바코드가 생성되었습니다." = "바코드 생성에 실패했습니다."))⟩

theorem C8_witness :
    (generate_eps isbnA addonA 15 300 0).isSome = true
      ∧ (generate_barcode ⟨isbnA, addonA, 15, 300, 0⟩).success = true
      ∧ (generate_barcode ⟨isbnA, addonA, 15, 300, 0⟩).message
          ≠ "바코드 생성에 실패했습니다." :=
  C8_encoding_never_fails isbnA addonA 15 300 0 (by decide) (by decide) (by decide)
    (Or.inr ⟨by decide, by decide⟩)

/-- C9: calling `generate_eps` directly with a valid identifier but a
non-empty malformed supplementary code still succeeds; the failed add-on
encoding is silently dropped — the document is the empty-add-on document
with the single "% Add-On:" settings line (recording the malformed value)
inserted at line index 15, so no add-on bars, no add-on text, the same
bounding box, and an add-on section width of 0. -/
theorem C9_malformed_addon_dropped (isbn addon : List Char) (h : ℚ) (dpi : ℕ) (off : ℚ)
    (h13 : isbn.length = 13) (hdig : isbn.all Char.isDigit = true)
    (hne : addon ≠ []) (hbad : ¬ (addon.length = 5 ∧ addon.all Char.isDigit = true)) :
    (generate_eps isbn addon h dpi off).isSome = true
      ∧ generate_eps isbn addon h dpi off
          = (generate_eps isbn [] h dpi off).map
              (fun d0 => d0.take 15 ++ ("% Add-On: " ++ String.mk addon) :: d0.drop 15) := by
  have henc : (encode_ean13 isbn).isSome = true :=
    (encode_ean13_isSome isbn).mpr ⟨h13, hdig⟩
  obtain ⟨m13, hm⟩ := Option.isSome_iff_exists.mp henc
  have he5 : encode_ean5 addon = none := by
    rw [encode_ean5, if_neg hbad]
  rw [generate_eps_eq addon hm h dpi off, generate_eps_eq [] hm h dpi off]
  refine ⟨rfl, ?_⟩
  rw [Option.map_some']
  refine congrArg some ?_
  rw [if_pos hne, he5, if_neg (by simp : ¬ ([] : List Char) ≠ [])]
  unfold epsDoc settingsLines
  rw [if_pos hne, if_neg (by simp : ¬ ([] : List Char) ≠ [])]
  rw [show epsTail isbn [] m13 none h
        (guard_bottom + h - font_size + off - addon_text_baseline_gap)
        (guard_bottom + h - font_size + off)
      = epsTail isbn addon m13 none h
        (guard_bottom + h - font_size + off - addon_text_baseline_gap)
        (guard_bottom + h - font_size + off) from rfl]
  simp only [headerLines, List.append_assoc, List.singleton_append, List.append_nil,
    List.cons_append, List.take_succ_cons, List.drop_succ_cons, List.take_zero,
    List.drop_zero, List.nil_append]

theorem C9_witness :
    (generate_eps isbnA addonBad 15 300 0).isSome = true
      ∧ generate_eps isbnA addonBad 15 300 0
          = (generate_eps isbnA [] 15 300 0).map
              (fun d0 => d0.take 15 ++ ("% Add-On: " ++ String.mk addonBad) :: d0.drop 15) :=
  C9_malformed_addon_dropped isbnA addonBad 15 300 0 (by decide) (by decide)
    (by decide) (by decide)

/-- C5: `generate_barcode` resolves every error into a structured failure
with a user-facing message and never returns a document on failure: a
non-13-digit identifier yields the format-error result regardless of
checksum; a 13-digit identifier failing the mod-10 check yields the
checksum-error result; and on every failure path `eps_content` is
absent. -/
theorem C5_failure_paths (r : BarcodeRequest) :
    (¬ (r.isbn.length = 13 ∧ r.isbn.all Char.isDigit = true) →
        generate_barcode r
          = ⟨false, "ISBN은 13자리 숫자여야 합니다.", none, none⟩)
      ∧ ((r.isbn.length = 13 ∧ r.isbn.all Char.isDigit = true) →
          validate_isbn13 r.isbn = false →
          generate_barcode r
            = ⟨false, "ISBN 체크디짓이 올바르지 않습니다.", none, none⟩)
      ∧ ((generate_barcode r).success = false →
          (generate_barcode r).eps_content = none) := by
  refine ⟨?_, ?_, ?_⟩
  · intro hbad
    unfold generate_barcode
    rw [if_pos hbad]
  · intro hok hck
    unfold generate_barcode
    rw [if_neg (not_not_intro hok), if_pos (by simp [hck])]
  · unfold generate_barcode
    split
    · intro _
      rfl
    · split
      · intro _
        rfl
      · split
        · intro _
          rfl
        · split
          · intro hfalse
            exact absurd hfalse (by simp)
          · intro _
            rfl

theorem C5_witness :
    generate_barcode ⟨isbnShort, [], 15, 300, 0⟩
        = ⟨false, "ISBN은 13자리 숫자여야 합니다.", none, none⟩
      ∧ generate_barcode ⟨isbnB, [], 15, 300, 0⟩
        = ⟨false, "ISBN 체크디짓이 올바르지 않습니다.", none, none⟩
      ∧ (generate_barcode ⟨isbnB, [], 15, 300, 0⟩).eps_content = none :=
  ⟨(C5_failure_paths ⟨isbnShort, [], 15, 300, 0⟩).1 (by decide),
   (C5_failure_paths ⟨isbnB, [], 15, 300, 0⟩).2.1 ⟨by decide, by decide⟩ (by decide),
   (C5_failure_paths ⟨isbnB, [], 15, 300, 0⟩).2.2 (by decide)⟩

theorem C3_witness :
    validate_isbn13 isbnA = true ∧ validate_isbn13 isbnB = false :=
  ⟨(C3_validate_isbn13_spec isbnA).mpr (by decide),
   by
    have h := (C3_validate_isbn13_spec isbnB).not
    rw [Bool.not_eq_true] at h
    exact h.mpr (by decide)⟩
